import Mathlib

/-!
Shallow embedding of the DEX pair-comparison dashboard (src/app.py) and
verification of its specification claims.

The app has two components: a data Loader (load_data) that queries a REST
endpoint and coerces numeric columns, and a per-pair Renderer that seeds a
what-if calculator from a reference-venue row, computes a synthetic APY row,
concatenates it with the real rows, sorts by apy24h descending and displays
the table with reference-venue rows highlighted.

Modelling choices:
- Numeric cell values are rationals.
- A raw JSON cell is a number, a numeric string, a non-numeric string, or
  null; pd.to_numeric with coercion followed by fillna(0) becomes
  to_numeric followed by Option.getD 0.
- The HTTP interaction is a value of type Response (connection failure, or
  a status code with body and text); load_data is a total function on it,
  so no exception can escape the Loader boundary.
- Streamlit signals (st.warning / st.error) are collected in a list.
- pandas sort_values on one key is modelled as a stable descending
  insertion sort on apy24h. The source calls sort_values with the default
  kind (quicksort), which pandas documents as not stable: the program
  gives no tie-order guarantee, so only tie-independent consequences of
  this model (sortedness, permutation, row count) reflect the program.
- Python int() truncates toward zero; ratTrunc models it on rationals.
-/

/-- Signal shown to the user: st.warning or st.error in the source. -/
inductive Signal where
  | warn (msg : String) : Signal
  | err (msg : String) : Signal
  deriving DecidableEq, Repr

/-- Raw JSON cell value as it arrives from the REST API, before numeric
coercion: a JSON number, a string that parses as a number, a string that
does not, or null / absent. -/
inductive RawValue where
  | num (q : ℚ) : RawValue
  | numStr (q : ℚ) : RawValue
  | badStr (s : String) : RawValue
  | null : RawValue
  deriving DecidableEq, Repr

/-- Model of pd.to_numeric with coercion on one cell: numbers and numeric
strings parse, everything else becomes missing (NaN). -/
def to_numeric : RawValue → Option ℚ
  | RawValue.num q => some q
  | RawValue.numStr q => some q
  | RawValue.badStr _ => none
  | RawValue.null => none

/-- One raw record of the REST response, with the selected columns
pair, tier, dex, apy24h, tvl, volume24h2, fees24h (src/app.py line 30). -/
structure RawRecord where
  pair : String
  tier : RawValue
  dex : String
  apy24h : RawValue
  tvl : RawValue
  volume24h2 : RawValue
  fees24h : RawValue
  deriving DecidableEq, Repr

/-- One processed row of the DataFrame after numeric coercion. -/
structure Row where
  pair : String
  tier : ℚ
  dex : String
  apy24h : ℚ
  tvl : ℚ
  volume24h2 : ℚ
  fees24h : ℚ
  deriving DecidableEq, Repr

/-- Numeric coercion of one record: each designated numeric column goes
through pd.to_numeric(..., errors=coerce).fillna(0) (src/app.py lines 43-44);
pair and dex are untouched. -/
def processRecord (r : RawRecord) : Row :=
  { pair := r.pair
    dex := r.dex
    tier := (to_numeric r.tier).getD 0
    apy24h := (to_numeric r.apy24h).getD 0
    tvl := (to_numeric r.tvl).getD 0
    volume24h2 := (to_numeric r.volume24h2).getD 0
    fees24h := (to_numeric r.fees24h).getD 0 }

/-- Outcome of the HTTP GET issued by load_data: either the request raised
a connection error (requests.exceptions.RequestException) or a response
with a status code, a JSON body and a text rendering arrived. -/
inductive Response where
  | connFailure (reason : String) : Response
  | http (status : Nat) (body : List RawRecord) (text : String) : Response
  deriving DecidableEq, Repr

/-- Error message of the connection-failure branch (src/app.py line 53). -/
def connErrorText (reason : String) : String :=
  "Ocurrió un error de conexión: " ++ reason

/-- Error message of the non-200-status branch (src/app.py line 50). -/
def httpErrorText (status : Nat) (text : String) : String :=
  "Error al consultar la API de Supabase: " ++ toString status ++ " - " ++ text

/-- Warning message of the empty-body branch (src/app.py line 47). -/
def emptyWarnText : String :=
  "No se encontraron datos para la blockchain hyperevm."

/-- Model of load_data (src/app.py lines 24-54): given the outcome of the
HTTP request, return the processed table together with the signals raised.
It is a total function, so nothing is thrown past this boundary. -/
def load_data : Response → List Row × List Signal
  | Response.connFailure reason => ([], [Signal.err (connErrorText reason)])
  | Response.http status body text =>
    if status = 200 then
      if body = [] then
        ([], [Signal.warn emptyWarnText])
      else
        (body.map processRecord, [])
    else
      ([], [Signal.err (httpErrorText status text)])

/-- Number of columns of a displayed row (pair, tier, dex, apy24h, tvl,
volume24h2, fees24h). -/
def numCols : Nat := 7

/-- Highlight colour used for reference-venue rows (src/app.py line 61). -/
def highlightColor : String := "background-color: #2E4053"

/-- Model of highlight_dex (src/app.py lines 57-65): one style string per
column, the highlight colour when dex is gliquid or gliquid_test, empty
otherwise. -/
def highlight_dex (row : Row) : List String :=
  if row.dex = "gliquid" ∨ row.dex = "gliquid_test" then
    List.replicate numCols highlightColor
  else
    List.replicate numCols ""

/-- Rows of the loaded table belonging to one pair
(pair_df, src/app.py line 89). -/
def pair_slice (df : List Row) (p : String) : List Row :=
  df.filter (fun r => r.pair == p)

/-- Rows of a pair slice whose dex is the reference venue
(gliquid_data, src/app.py line 92). -/
def gliquid_data (pair_df : List Row) : List Row :=
  pair_df.filter (fun r => r.dex == "gliquid")

/-- Model of Python int() on a rational: truncation toward zero. -/
def ratTrunc (q : ℚ) : Int :=
  Int.tdiv q.num (q.den : Int)

/-- Calculator defaults for one pair slice (src/app.py lines 92-103): if a
reference-venue row exists, tier (as float), int(tvl) and int(volume24h2)
of the first such row; otherwise the fixed fallbacks 1.0, 100000, 50000. -/
def calc_defaults (pair_df : List Row) : ℚ × Int × Int :=
  match gliquid_data pair_df with
  | [] => (1, 100000, 50000)
  | r :: _ => (r.tier, ratTrunc r.tvl, ratTrunc r.volume24h2)

/-- Synthetic APY of the calculator (src/app.py line 116). -/
def new_apy (tier tvl volume : ℚ) : ℚ :=
  if tvl > 0 then (tier * volume / tvl) * 365 else 0

/-- Synthetic calculator row (new_row_data, src/app.py lines 119-125). -/
def new_row (p : String) (tier tvl volume : ℚ) : Row :=
  { pair := p
    tier := tier
    dex := "gliquid_test"
    apy24h := new_apy tier tvl volume
    tvl := tvl
    volume24h2 := volume
    fees24h := 0 }

/-- Insertion of a row into a list already sorted by apy24h descending.
On ties the incoming row, which comes from an earlier position of the
unsorted list, is placed first; this is a stability choice of the model,
not a guarantee of the source, whose sort_values uses the default
quicksort kind. -/
def insertRow (x : Row) : List Row → List Row
  | [] => [x]
  | y :: ys => if y.apy24h > x.apy24h then y :: insertRow x ys else x :: y :: ys

/-- Model of combined_df.sort_values(by=apy24h, ascending=False)
(src/app.py line 130) as a descending insertion sort. The model is stable,
the source (default quicksort kind) is not: only its tie-independent
consequences reflect the program. -/
def sortByApy : List Row → List Row
  | [] => []
  | x :: xs => insertRow x (sortByApy xs)

/-- Table rendered for one pair (src/app.py lines 126-133): the calculator
row is concatenated in front of the real rows and the result is sorted by
apy24h descending. -/
def renderTable (df : List Row) (p : String) (tier tvl volume : ℚ) : List Row :=
  sortByApy (new_row p tier tvl volume :: pair_slice df p)

/-- Visible output element of one render pass. -/
inductive UIEvent where
  | info (msg : String) : UIEvent
  | table (rows : List Row) : UIEvent
  deriving DecidableEq, Repr

/-- Informational prompt shown when no pair is selected
(src/app.py line 135). -/
def selectPromptText : String :=
  "Por favor, selecciona al menos un par para ver la comparativa."

/-- Informational message shown when the loaded table is empty
(src/app.py line 137). -/
def noDataText : String :=
  "No hay datos disponibles para mostrar."

/-- Model of the page body (src/app.py lines 73-137): with an empty table
only the no-data notice is shown; with a non-empty table and an empty
selection only the selection prompt is shown; otherwise one table per
selected pair, in selection order, using the user-entered calculator
inputs for that pair. -/
def renderPage (df : List Row) (selected : List String)
    (inputs : String → ℚ × ℚ × ℚ) : List UIEvent :=
  if df = [] then
    [UIEvent.info noDataText]
  else if selected = [] then
    [UIEvent.info selectPromptText]
  else
    selected.map (fun p =>
      UIEvent.table (renderTable df p (inputs p).1 (inputs p).2.1 (inputs p).2.2))

/-- Configuration-error message shown when the secrets are missing
(src/app.py line 19). -/
def missingCredsText : String :=
  "Error: No se encontraron las credenciales de Supabase. Asegurate de configurar tu archivo secrets.toml."

/-- Model of the credential lookup (src/app.py lines 15-20): st.secrets is
a partial map from key to value; a missing key raises KeyError, caught by
the except branch. -/
def checkCredentials (secrets : String → Option String) : Except String (String × String) :=
  match secrets "SUPABASE_URL", secrets "SUPABASE_KEY" with
  | some url, some key => Except.ok (url, key)
  | _, _ => Except.error missingCredsText

/-- Outcome of the startup sequence: either the session halts on the
configuration error (st.stop) before any query, or the Loader runs. -/
inductive StartupResult where
  | halted (msg : String) : StartupResult
  | loaded (rows : List Row) (signals : List Signal) : StartupResult
  deriving DecidableEq, Repr

/-- Model of the startup sequence (src/app.py lines 15-20 then 71): check
the credentials; on failure halt with the configuration error, otherwise
run the Loader on the outcome of the sole HTTP request. -/
def runStartup (secrets : String → Option String) (resp : Response) : StartupResult :=
  match checkCredentials secrets with
  | Except.error msg => StartupResult.halted msg
  | Except.ok _ =>
    match load_data resp with
    | (rows, signals) => StartupResult.loaded rows signals

/-- Real row (dex=x, apy=10) of the concrete scenario in the spec. -/
def rowX : Row :=
  { pair := "A/B", tier := 0, dex := "x", apy24h := 10, tvl := 0, volume24h2 := 0, fees24h := 0 }

/-- Real row (dex=y, apy=5) of the concrete scenario in the spec. -/
def rowY : Row :=
  { pair := "A/B", tier := 0, dex := "y", apy24h := 5, tvl := 0, volume24h2 := 0, fees24h := 0 }

/-- Loaded table of the concrete scenario. -/
def exampleDf : List Row := [rowX, rowY]

/-- Raw record whose numeric cells all parse. -/
def recNum : RawRecord :=
  { pair := "A/B", tier := RawValue.num 2, dex := "x", apy24h := RawValue.numStr 10,
    tvl := RawValue.num 1000, volume24h2 := RawValue.num 500, fees24h := RawValue.num 3 }

/-- Raw record with an unparseable tier, a null apy24h, an unparseable
volume24h2 and a null fees24h. -/
def recBad : RawRecord :=
  { pair := "A/B", tier := RawValue.badStr "n/a", dex := "y", apy24h := RawValue.null,
    tvl := RawValue.num 7, volume24h2 := RawValue.badStr "-", fees24h := RawValue.null }

/-- Response body mixing parseable and unparseable cells. -/
def wBody : List RawRecord := [recNum, recBad]

/-- First reference-venue row of the multiple-gliquid scenario, with a
non-integer tvl and volume so that the int() truncation is visible. -/
def gRow1 : Row :=
  { pair := "A/B", tier := 1/2, dex := "gliquid", apy24h := 7, tvl := 203/2,
    volume24h2 := 999/10, fees24h := 1 }

/-- Second reference-venue row of the multiple-gliquid scenario. -/
def gRow2 : Row :=
  { pair := "A/B", tier := 2, dex := "gliquid", apy24h := 3, tvl := 200,
    volume24h2 := 60, fees24h := 1 }

/-- Loaded table with two reference-venue rows for the same pair. -/
def wDf10 : List Row := [rowX, gRow1, gRow2]

/-- Relation between a raw cell and its coerced value: parseable cells keep
their parsed value, unparseable or absent cells become 0. -/
def coerced (v : RawValue) (q : ℚ) : Prop :=
  (∀ x, to_numeric v = some x → q = x) ∧ (to_numeric v = none → q = 0)

theorem coerced_getD (v : RawValue) : coerced v ((to_numeric v).getD 0) := by
  constructor
  · intro x hx
    rw [hx]
    rfl
  · intro hn
    rw [hn]
    rfl

theorem mem_insertRow {a x : Row} {l : List Row} :
    a ∈ insertRow x l ↔ a = x ∨ a ∈ l := by
  induction l with
  | nil => simp [insertRow]
  | cons y ys ih =>
    by_cases h : y.apy24h > x.apy24h
    · simp only [insertRow, if_pos h, List.mem_cons, ih]
      tauto
    · simp only [insertRow, if_neg h, List.mem_cons]

theorem perm_insertRow (x : Row) (l : List Row) : (insertRow x l).Perm (x :: l) := by
  induction l with
  | nil => simp [insertRow]
  | cons y ys ih =>
    by_cases h : y.apy24h > x.apy24h
    · simp only [insertRow, if_pos h]
      exact (ih.cons y).trans (List.Perm.swap x y ys)
    · simp [insertRow, if_neg h]

theorem sorted_insertRow {x : Row} {l : List Row}
    (h : l.Pairwise (fun a b => b.apy24h ≤ a.apy24h)) :
    (insertRow x l).Pairwise (fun a b => b.apy24h ≤ a.apy24h) := by
  induction l with
  | nil => simp [insertRow]
  | cons y ys ih =>
    rcases List.pairwise_cons.1 h with ⟨hy, hys⟩
    by_cases hc : y.apy24h > x.apy24h
    · simp only [insertRow, if_pos hc]
      refine List.pairwise_cons.2 ⟨?_, ih hys⟩
      intro b hb
      rcases mem_insertRow.1 hb with rfl | hb2
      · exact le_of_lt hc
      · exact hy b hb2
    · simp only [insertRow, if_neg hc]
      refine List.pairwise_cons.2 ⟨?_, h⟩
      intro b hb
      rcases List.mem_cons.1 hb with rfl | hb2
      · exact not_lt.1 hc
      · exact le_trans (hy b hb2) (not_lt.1 hc)

theorem perm_sortByApy (l : List Row) : (sortByApy l).Perm l := by
  induction l with
  | nil => simp [sortByApy]
  | cons x xs ih =>
    exact (perm_insertRow x (sortByApy xs)).trans (ih.cons x)

theorem sorted_sortByApy (l : List Row) :
    (sortByApy l).Pairwise (fun a b => b.apy24h ≤ a.apy24h) := by
  induction l with
  | nil => simp [sortByApy]
  | cons x xs ih => exact sorted_insertRow ih

theorem find_eq_head_of_filter (q : Row → Bool) (l : List Row) (r : Row)
    (rest : List Row) (h : l.filter q = r :: rest) : l.find? q = some r := by
  induction l with
  | nil => simp at h
  | cons a as ih =>
    by_cases ha : q a
    · rw [List.filter_cons_of_pos ha] at h
      rw [List.find?_cons_of_pos _ ha, (List.cons.inj h).1]
    · rw [List.filter_cons_of_neg (by simpa using ha)] at h
      rw [List.find?_cons_of_neg _ (by simpa using ha)]
      exact ih h

/-- C1: for every user-entered tier, tvl and volume, the synthetic yield of
the calculator row equals tier * volume / tvl * 365 when tvl > 0 and 0
otherwise, and the synthetic row carries fees24h = 0. -/
theorem synthetic_yield_formula (p : String) (tier tvl volume : ℚ) :
    (new_row p tier tvl volume).apy24h
        = (if tvl > 0 then tier * volume / tvl * 365 else 0)
    ∧ (new_row p tier tvl volume).fees24h = 0 :=
  ⟨rfl, rfl⟩

/-- C3: for every successful non-empty load, no signal is raised and every
row of the returned table comes from a body record with each designated
numeric column coerced: a parseable cell keeps its value, an unparseable or
absent cell becomes 0, so only numbers reach sorting and arithmetic. -/
theorem numeric_columns_coerced (body : List RawRecord) (text : String)
    (h : body ≠ []) :
    (load_data (Response.http 200 body text)).2 = []
    ∧ ∀ row ∈ (load_data (Response.http 200 body text)).1,
        ∃ rec ∈ body, row = processRecord rec
          ∧ coerced rec.tier row.tier
          ∧ coerced rec.apy24h row.apy24h
          ∧ coerced rec.tvl row.tvl
          ∧ coerced rec.volume24h2 row.volume24h2
          ∧ coerced rec.fees24h row.fees24h := by
  have hld : load_data (Response.http 200 body text) = (body.map processRecord, []) := by
    simp [load_data, h]
  rw [hld]
  refine ⟨rfl, ?_⟩
  intro row hrow
  rcases List.mem_map.1 hrow with ⟨rec, hrec, rfl⟩
  exact ⟨rec, hrec, rfl, coerced_getD _, coerced_getD _, coerced_getD _,
    coerced_getD _, coerced_getD _⟩

/-- Witness for C3 at a concrete body mixing parseable cells with an
unparseable tier and volume and a null apy24h and fees24h. -/
theorem numeric_columns_coerced_witness :
    wBody ≠ []
    ∧ ((load_data (Response.http 200 wBody "")).2 = []
      ∧ ∀ row ∈ (load_data (Response.http 200 wBody "")).1,
          ∃ rec ∈ wBody, row = processRecord rec
            ∧ coerced rec.tier row.tier
            ∧ coerced rec.apy24h row.apy24h
            ∧ coerced rec.tvl row.tvl
            ∧ coerced rec.volume24h2 row.volume24h2
            ∧ coerced rec.fees24h row.fees24h) :=
  ⟨by simp [wBody], numeric_columns_coerced wBody "" (by simp [wBody])⟩

/-- C4: for every connection failure or non-200 status, load_data returns
the empty table together with exactly one error signal whose message
carries the status or the reason; load_data is total, so nothing is raised
past the Loader boundary. -/
theorem loader_failure_empty_and_error (reason text : String) (status : Nat)
    (body : List RawRecord) (h : status ≠ 200) :
    load_data (Response.connFailure reason)
        = ([], [Signal.err (connErrorText reason)])
    ∧ load_data (Response.http status body text)
        = ([], [Signal.err (httpErrorText status text)])
    ∧ (∃ pre post, httpErrorText status text = pre ++ toString status ++ post)
    ∧ (∃ pre, connErrorText reason = pre ++ reason) := by
  refine ⟨rfl, by simp [load_data, h], ?_, ⟨"Ocurrió un error de conexión: ", rfl⟩⟩
  exact ⟨"Error al consultar la API de Supabase: ", " - " ++ text, by
    simp [httpErrorText, String.append_assoc]⟩

/-- Witness for C4 at status 500 and a concrete connection failure. -/
theorem loader_failure_empty_and_error_witness :
    (500 : Nat) ≠ 200
    ∧ (load_data (Response.connFailure "timeout")
          = ([], [Signal.err (connErrorText "timeout")])
      ∧ load_data (Response.http 500 [] "Internal Server Error")
          = ([], [Signal.err (httpErrorText 500 "Internal Server Error")])
      ∧ (∃ pre post, httpErrorText 500 "Internal Server Error"
            = pre ++ toString 500 ++ post)
      ∧ (∃ pre, connErrorText "timeout" = pre ++ "timeout")) :=
  ⟨by decide, loader_failure_empty_and_error "timeout" "Internal Server Error" 500 [] (by decide)⟩

/-- C5: for every successful response with an empty result set, load_data
returns the empty table and exactly one signal, the informational warning,
and no error signal is raised on that call. -/
theorem loader_empty_result_warning (text : String) :
    load_data (Response.http 200 [] text) = ([], [Signal.warn emptyWarnText])
    ∧ ∀ m, Signal.err m ∉ (load_data (Response.http 200 [] text)).2 := by
  refine ⟨rfl, ?_⟩
  intro m hm
  simp [load_data] at hm

/-- C6: for every pair slice, either some record of the slice has dex equal
to the reference venue and the calculator defaults are seeded from such a
record (tier as entered, tvl and volume through int()), or no such record
exists and the fixed fallbacks tier=1.0, tvl=100000, volume=50000 are
used. -/
theorem calculator_defaults_seeding (df : List Row) (p : String) :
    (∃ r ∈ pair_slice df p, r.dex = "gliquid"
      ∧ calc_defaults (pair_slice df p)
          = (r.tier, ratTrunc r.tvl, ratTrunc r.volume24h2))
    ∨ ((∀ r ∈ pair_slice df p, r.dex ≠ "gliquid")
      ∧ calc_defaults (pair_slice df p) = (1, 100000, 50000)) := by
  rcases hg : gliquid_data (pair_slice df p) with _ | ⟨r, rest⟩
  · right
    constructor
    · intro r hr hdex
      have hm : r ∈ gliquid_data (pair_slice df p) :=
        List.mem_filter.2 ⟨hr, by simp [hdex]⟩
      rw [hg] at hm
      exact absurd hm (List.not_mem_nil r)
    · unfold calc_defaults
      rw [hg]
  · left
    have hm : r ∈ gliquid_data (pair_slice df p) := by
      rw [hg]
      exact List.mem_cons_self r rest
    rcases List.mem_filter.1 hm with ⟨hin, hdex⟩
    refine ⟨r, hin, by simpa using hdex, ?_⟩
    unfold calc_defaults
    rw [hg]

/-- C7: for every non-empty loaded table, rendering with an empty selection
produces only the informational prompt and no table. -/
theorem empty_selection_prompt_only (df : List Row)
    (inputs : String → ℚ × ℚ × ℚ) (h : df ≠ []) :
    renderPage df [] inputs = [UIEvent.info selectPromptText]
    ∧ ∀ rows, UIEvent.table rows ∉ renderPage df [] inputs := by
  have heq : renderPage df [] inputs = [UIEvent.info selectPromptText] := by
    simp [renderPage, h]
  refine ⟨heq, ?_⟩
  intro rows hmem
  rw [heq] at hmem
  simp at hmem

/-- Witness for C7 at the concrete two-row table. -/
theorem empty_selection_prompt_only_witness :
    exampleDf ≠ []
    ∧ (renderPage exampleDf [] (fun _ => (0, 0, 0))
          = [UIEvent.info selectPromptText]
      ∧ ∀ rows, UIEvent.table rows ∉ renderPage exampleDf [] (fun _ => (0, 0, 0))) :=
  ⟨by simp [exampleDf], empty_selection_prompt_only exampleDf (fun _ => (0, 0, 0))
    (by simp [exampleDf])⟩

/-- C8: if either credential secret is absent, the startup halts with the
configuration error, whatever the data store would have answered, so no
query outcome can influence the session. -/
theorem missing_credentials_halt (secrets : String → Option String)
    (h : secrets "SUPABASE_URL" = none ∨ secrets "SUPABASE_KEY" = none) :
    ∀ resp : Response, runStartup secrets resp = StartupResult.halted missingCredsText := by
  intro resp
  unfold runStartup checkCredentials
  rcases h with h | h
  · rw [h]
  · rw [h]
    rcases hu : secrets "SUPABASE_URL" with _ | u <;> simp

/-- Witness for C8 with both secrets absent and a concrete response. -/
theorem missing_credentials_halt_witness :
    ((fun _ => none) : String → Option String) "SUPABASE_URL" = none
    ∧ runStartup (fun _ => none) (Response.connFailure "down")
        = StartupResult.halted missingCredsText :=
  ⟨rfl, missing_credentials_halt (fun _ => none) (Or.inl rfl) (Response.connFailure "down")⟩

/-- C9: a row receives the highlight styling exactly when its dex is the
reference venue or its sentinel test variant, and the empty styling exactly
otherwise. -/
theorem highlight_reference_venue_iff (row : Row) :
    (highlight_dex row = List.replicate numCols highlightColor
      ↔ (row.dex = "gliquid" ∨ row.dex = "gliquid_test"))
    ∧ (highlight_dex row = List.replicate numCols ""
      ↔ ¬(row.dex = "gliquid" ∨ row.dex = "gliquid_test")) := by
  by_cases h : row.dex = "gliquid" ∨ row.dex = "gliquid_test" <;>
    simp [highlight_dex, h, highlightColor, numCols]

/-- C10: with at least two reference-venue records in the pair slice, the
calculator defaults come from the first such record in the order of the
loaded table, with tvl and volume truncated toward zero and tier kept
untouched. -/
theorem defaults_first_gliquid_trunc (df : List Row) (p : String)
    (h : 2 ≤ (gliquid_data (pair_slice df p)).length) :
    ∃ r, (pair_slice df p).find? (fun x => x.dex == "gliquid") = some r
      ∧ calc_defaults (pair_slice df p)
          = (r.tier, ratTrunc r.tvl, ratTrunc r.volume24h2) := by
  rcases hg : gliquid_data (pair_slice df p) with _ | ⟨r, rest⟩
  · rw [hg] at h
    simp at h
  · refine ⟨r, ?_, ?_⟩
    · exact find_eq_head_of_filter _ _ r rest hg
    · unfold calc_defaults
      rw [hg]

/-- Witness for C10 at a table with two reference-venue rows whose first
one has the fractional tvl 203/2 and volume 999/10. -/
theorem defaults_first_gliquid_trunc_witness :
    2 ≤ (gliquid_data (pair_slice wDf10 "A/B")).length
    ∧ ∃ r, (pair_slice wDf10 "A/B").find? (fun x => x.dex == "gliquid") = some r
        ∧ calc_defaults (pair_slice wDf10 "A/B")
            = (r.tier, ratTrunc r.tvl, ratTrunc r.volume24h2) :=
  ⟨by decide, defaults_first_gliquid_trunc wDf10 "A/B" (by decide)⟩
